import Mathlib

/-!
Verification of the water-consumption estimation core of the WaterIntake
repository (src/routes.ts): the Baseline Estimator
(`calculateInitialWaterConsumption`, routes.ts lines 461-562) and the Daily
Adjuster (`calculateDailyWaterConsumption`, routes.ts lines 564-681).

Embedding choices:
* JavaScript numbers are modelled as exact rationals (ℚ); the constants of the
  model (2.5, 0.623, ...) are taken at their decimal value.
* `Math.round` is modelled by `jsRound x = ⌊x + 1/2⌋` (JavaScript rounds
  half-way cases toward +∞), producing an integer (ℤ), which also captures
  that every persisted value is an integer.
* Optional request fields are `Option` values; JavaScript truthiness tests on
  numeric fields (`if (response.bathsPerMonth)`) hold exactly when the field
  is present and non-zero, on boolean fields when present and true, and
  `x === 'lit'` string comparisons hold exactly when the field is present and
  equal to the literal.  `response.appliances || []` is `Option.getD` with
  default `[]`, and `appliances?.includes(t)` is membership in that default.
* Both functions are total by construction, mirroring that the source throws
  on no input.
-/

namespace WaterIntake

/-- JavaScript `Math.round`: nearest integer, half-way cases toward +∞. -/
def jsRound (x : ℚ) : ℤ := ⌊x + 1/2⌋

/-- Value of an optional numeric field, absent read as 0. -/
def numVal (o : Option ℚ) : ℚ := o.getD 0

/-- JavaScript truthiness of an optional numeric field:
present and non-zero. -/
def numTruthy (o : Option ℚ) : Bool := numVal o != 0

/-- JavaScript truthiness of an optional boolean field:
present and true. -/
def boolTruthy (o : Option Bool) : Bool := o.getD false

/-- The initial-quiz profile consumed by `calculateInitialWaterConsumption`
(the fields of `response` it reads).  All fields optional, as in the source,
where `response` is an untyped record. -/
structure InitialResponse where
  appliances : Option (List String) := none
  bathsPerMonth : Option ℚ := none
  dishwasherType : Option String := none
  dishwasherFrequency : Option ℚ := none
  laundryType : Option String := none
  laundryFrequency : Option ℚ := none
  hasGarden : Option Bool := none
  gardenArea : Option ℚ := none
  gardenFrequency : Option ℚ := none
  hasPool : Option Bool := none
  carWashMethod : Option String := none
  carWashFrequency : Option ℚ := none
  utilityPercentage : Option ℚ := none
  shoppingHabits : Option String := none
deriving DecidableEq

/-- The daily activity log consumed by `calculateDailyWaterConsumption`
(the fields of `dailyResponse` it reads). -/
structure DailyResponse where
  showerMinutes : Option ℚ := none
  bathroomSinkMinutes : Option ℚ := none
  kitchenSinkMinutes : Option ℚ := none
  toiletFlushes : Option ℚ := none
  rainwaterCollected : Option ℚ := none
  milesDriven : Option ℚ := none
  recycledPaper : Option ℚ := none
  recycledPlastic : Option ℚ := none
  recycledBottlesCans : Option ℚ := none
  veggiesConsumed : Option ℚ := none
  meatConsumed : Option ℚ := none
  petFoodUsed : Option ℚ := none
deriving DecidableEq

/-- The working breakdown held in the local variables of both functions
before the final `Math.round` conversion: exact (rational) gallon values. -/
structure RawBreakdown where
  totalGallons : ℚ
  showerGallons : ℚ
  toiletGallons : ℚ
  kitchenGallons : ℚ
  dishwasherGallons : ℚ
  laundryGallons : ℚ
  gardenGallons : ℚ
  poolGallons : ℚ
  carWashGallons : ℚ
  energyGallons : ℚ
  shoppingGallons : ℚ
  otherGallons : ℚ
deriving DecidableEq

/-- The value returned to the caller: every field passed through
`Math.round`, hence an integer. -/
structure Consumption where
  totalGallons : ℤ
  showerGallons : ℤ
  toiletGallons : ℤ
  kitchenGallons : ℤ
  dishwasherGallons : ℤ
  laundryGallons : ℤ
  gardenGallons : ℤ
  poolGallons : ℤ
  carWashGallons : ℤ
  energyGallons : ℤ
  shoppingGallons : ℤ
  otherGallons : ℤ
deriving DecidableEq

/-- The final conversion block of both functions
(routes.ts 547-561 and 667-681): `Math.round` on every field. -/
def roundBreakdown (b : RawBreakdown) : Consumption where
  totalGallons := jsRound b.totalGallons
  showerGallons := jsRound b.showerGallons
  toiletGallons := jsRound b.toiletGallons
  kitchenGallons := jsRound b.kitchenGallons
  dishwasherGallons := jsRound b.dishwasherGallons
  laundryGallons := jsRound b.laundryGallons
  gardenGallons := jsRound b.gardenGallons
  poolGallons := jsRound b.poolGallons
  carWashGallons := jsRound b.carWashGallons
  energyGallons := jsRound b.energyGallons
  shoppingGallons := jsRound b.shoppingGallons
  otherGallons := jsRound b.otherGallons

/-- The non-negativity correction shared by both functions
(routes.ts 541-545 and 661-665): if the running total is negative, add its
absolute value to the `other` category and clamp the total to 0. -/
def applyCorrection (b : RawBreakdown) : RawBreakdown :=
  if b.totalGallons < 0 then
    { b with otherGallons := b.otherGallons + |b.totalGallons|, totalGallons := 0 }
  else b

/-- Sum of the eleven category fields of a raw breakdown (the expression
assigned to `totalGallons` in routes.ts 537-540 and 648-659). -/
def rawCategorySum (b : RawBreakdown) : ℚ :=
  b.showerGallons + b.toiletGallons + b.kitchenGallons + b.dishwasherGallons +
  b.laundryGallons + b.gardenGallons + b.poolGallons + b.carWashGallons +
  b.energyGallons + b.shoppingGallons + b.otherGallons

/-- Sum of the eleven (rounded, persisted) category fields of a returned
breakdown. -/
def categorySum (c : Consumption) : ℤ :=
  c.showerGallons + c.toiletGallons + c.kitchenGallons + c.dishwasherGallons +
  c.laundryGallons + c.gardenGallons + c.poolGallons + c.carWashGallons +
  c.energyGallons + c.shoppingGallons + c.otherGallons

/-- Category computation of the Baseline Estimator (routes.ts 463-540,
steps 1-9 plus the initial total): every field holds exactly the value the
corresponding local variable has when the source reaches line 541, with
`totalGallons` the category sum computed at lines 537-540. -/
def initialCategories (response : InitialResponse) : RawBreakdown :=
  let appliances := response.appliances.getD []
  let showerGallons : ℚ :=
    (if appliances.contains "showerhead" then -63 else 0) +
    (if numTruthy response.bathsPerMonth then
      80 * numVal response.bathsPerMonth / 30 else 0)
  let toiletGallons : ℚ := 0
  let kitchenGallons : ℚ := 0
  let dishwasherGallons : ℚ :=
    if response.dishwasherType == some "yes_efficient" &&
        numTruthy response.dishwasherFrequency then
      4 * numVal response.dishwasherFrequency / 30
    else if response.dishwasherType == some "yes_not_efficient" &&
        numTruthy response.dishwasherFrequency then
      10 * numVal response.dishwasherFrequency / 30
    else 0
  let laundryGallons : ℚ :=
    if response.laundryType == some "yes_efficient" &&
        numTruthy response.laundryFrequency then
      14 * numVal response.laundryFrequency / 30
    else if response.laundryType == some "yes_not_efficient" &&
        numTruthy response.laundryFrequency then
      20 * numVal response.laundryFrequency / 30
    else 0
  let gardenGallons : ℚ :=
    if boolTruthy response.hasGarden && numTruthy response.gardenArea &&
        numTruthy response.gardenFrequency then
      0.623 * numVal response.gardenArea * numVal response.gardenFrequency / 30
    else 0
  let poolGallons : ℚ := if boolTruthy response.hasPool then 65 else 0
  let carWashGallons : ℚ :=
    if response.carWashMethod == some "garden_hose" &&
        numTruthy response.carWashFrequency then
      100 * numVal response.carWashFrequency / 30
    else if response.carWashMethod == some "drive_through" &&
        numTruthy response.carWashFrequency then
      35 * numVal response.carWashFrequency / 30
    else if response.carWashMethod == some "self_service" &&
        numTruthy response.carWashFrequency then
      17 * numVal response.carWashFrequency / 30
    else 0
  let energyGallons : ℚ :=
    if numTruthy response.utilityPercentage then
      0.34 * numVal response.utilityPercentage else 0
  let shoppingGallons : ℚ :=
    if response.shoppingHabits == some "basics" then 291
    else if response.shoppingHabits == some "moderate" then 583
    else if response.shoppingHabits == some "addict" then 1000
    else 0
  let otherGallons : ℚ := 0
  { totalGallons := showerGallons + toiletGallons + kitchenGallons +
      dishwasherGallons + laundryGallons + gardenGallons + poolGallons +
      carWashGallons + energyGallons + shoppingGallons + otherGallons
    showerGallons := showerGallons
    toiletGallons := toiletGallons
    kitchenGallons := kitchenGallons
    dishwasherGallons := dishwasherGallons
    laundryGallons := laundryGallons
    gardenGallons := gardenGallons
    poolGallons := poolGallons
    carWashGallons := carWashGallons
    energyGallons := energyGallons
    shoppingGallons := shoppingGallons
    otherGallons := otherGallons }

/-- The function `calculateInitialWaterConsumption` (routes.ts 461-562): category
computation, total, non-negativity correction, rounding. -/
def calculateInitialWaterConsumption (response : InitialResponse) : Consumption :=
  roundBreakdown (applyCorrection (initialCategories response))

/-- Steps 1-12 of the Daily Adjuster (routes.ts 571-645) applied to the
breakdown `base` returned by `calculateInitialWaterConsumption` (whose fields
are already-rounded integers, as in the source): each field holds the value
the corresponding field of `updatedConsumption` has when the source reaches
line 647.  In particular `totalGallons` carries the direct subtractions of
steps 5, 8 and 9 (rainwater, recycled plastic, recycled bottles/cans). -/
def dailyAdjusted (dailyResponse : DailyResponse) (initialResponse : InitialResponse)
    (base : Consumption) : RawBreakdown :=
  let appliances := initialResponse.appliances.getD []
  let showerGallons : ℚ := base.showerGallons +
    (if numTruthy dailyResponse.showerMinutes then
      (if appliances.contains "showerhead" then
        1.8 * numVal dailyResponse.showerMinutes
      else
        2.5 * numVal dailyResponse.showerMinutes)
    else 0)
  let kitchenGallons : ℚ := base.kitchenGallons +
    (if numTruthy dailyResponse.bathroomSinkMinutes then
      (if appliances.contains "bathroom_sink" then
        1.5 * numVal dailyResponse.bathroomSinkMinutes
      else
        2.2 * numVal dailyResponse.bathroomSinkMinutes)
    else 0) +
    (if numTruthy dailyResponse.kitchenSinkMinutes then
      (if appliances.contains "kitchen_sink" then
        1.5 * numVal dailyResponse.kitchenSinkMinutes
      else
        2.2 * numVal dailyResponse.kitchenSinkMinutes)
    else 0)
  let toiletGallons : ℚ := base.toiletGallons +
    (if numTruthy dailyResponse.toiletFlushes then
      (if appliances.contains "toilet" then
        1.6 * numVal dailyResponse.toiletFlushes
      else
        3.5 * numVal dailyResponse.toiletFlushes)
    else 0)
  let totalGallons : ℚ := base.totalGallons -
    (if numTruthy dailyResponse.rainwaterCollected then
      numVal dailyResponse.rainwaterCollected else 0) -
    (if numTruthy dailyResponse.recycledPlastic then
      0.03 * numVal dailyResponse.recycledPlastic else 0) -
    (if numTruthy dailyResponse.recycledBottlesCans then
      0.03 * numVal dailyResponse.recycledBottlesCans else 0)
  let otherGallons : ℚ := base.otherGallons +
    (if numTruthy dailyResponse.milesDriven then
      0.165 * numVal dailyResponse.milesDriven else 0) +
    (if numTruthy dailyResponse.recycledPaper then
      0.04 * numVal dailyResponse.recycledPaper else 0) +
    (if numTruthy dailyResponse.veggiesConsumed then
      0.085 * numVal dailyResponse.veggiesConsumed else 0) +
    (if numTruthy dailyResponse.meatConsumed then
      2 * numVal dailyResponse.meatConsumed else 0) +
    (if numTruthy dailyResponse.petFoodUsed then
      0.7 * numVal dailyResponse.petFoodUsed else 0)
  { totalGallons := totalGallons
    showerGallons := showerGallons
    toiletGallons := toiletGallons
    kitchenGallons := kitchenGallons
    dishwasherGallons := base.dishwasherGallons
    laundryGallons := base.laundryGallons
    gardenGallons := base.gardenGallons
    poolGallons := base.poolGallons
    carWashGallons := base.carWashGallons
    energyGallons := base.energyGallons
    shoppingGallons := base.shoppingGallons
    otherGallons := otherGallons }

/-- The "Update total with changes to components" block (routes.ts 648-659):
the running total — including the direct subtractions of steps 5, 8 and 9 —
is overwritten with the sum of the eleven category fields. -/
def recomputeTotal (b : RawBreakdown) : RawBreakdown :=
  { b with totalGallons := rawCategorySum b }

/-- The function `calculateDailyWaterConsumption` (routes.ts 564-681): baseline from the
initial quiz, daily deltas, total recomputation, non-negativity correction,
rounding. -/
def calculateDailyWaterConsumption (dailyResponse : DailyResponse)
    (initialResponse : InitialResponse) : Consumption :=
  roundBreakdown (applyCorrection (recomputeTotal
    (dailyAdjusted dailyResponse initialResponse
      (calculateInitialWaterConsumption initialResponse))))

/-- Holds when `z` is the value `Math.round x` produces: the integer nearest to `x`,
half-way cases rounded up. -/
def IsJsRoundOf (z : ℤ) (x : ℚ) : Prop := (z : ℚ) - 1/2 ≤ x ∧ x < (z : ℚ) + 1/2

/-- The returned breakdown `c` is, field by field, the `Math.round` image of
the working breakdown `b`. -/
def IsRoundedImageOf (c : Consumption) (b : RawBreakdown) : Prop :=
  IsJsRoundOf c.totalGallons b.totalGallons ∧
  IsJsRoundOf c.showerGallons b.showerGallons ∧
  IsJsRoundOf c.toiletGallons b.toiletGallons ∧
  IsJsRoundOf c.kitchenGallons b.kitchenGallons ∧
  IsJsRoundOf c.dishwasherGallons b.dishwasherGallons ∧
  IsJsRoundOf c.laundryGallons b.laundryGallons ∧
  IsJsRoundOf c.gardenGallons b.gardenGallons ∧
  IsJsRoundOf c.poolGallons b.poolGallons ∧
  IsJsRoundOf c.carWashGallons b.carWashGallons ∧
  IsJsRoundOf c.energyGallons b.energyGallons ∧
  IsJsRoundOf c.shoppingGallons b.shoppingGallons ∧
  IsJsRoundOf c.otherGallons b.otherGallons

/-- An activity log is valid when every logged quantity is non-negative
(absent fields count as 0). -/
def DailyNonneg (d : DailyResponse) : Prop :=
  0 ≤ numVal d.showerMinutes ∧ 0 ≤ numVal d.bathroomSinkMinutes ∧
  0 ≤ numVal d.kitchenSinkMinutes ∧ 0 ≤ numVal d.toiletFlushes ∧
  0 ≤ numVal d.rainwaterCollected ∧ 0 ≤ numVal d.milesDriven ∧
  0 ≤ numVal d.recycledPaper ∧ 0 ≤ numVal d.recycledPlastic ∧
  0 ≤ numVal d.recycledBottlesCans ∧ 0 ≤ numVal d.veggiesConsumed ∧
  0 ≤ numVal d.meatConsumed ∧ 0 ≤ numVal d.petFoodUsed

/-- The all-absent daily activity log (every field undefined, hence every
truthiness test false: no delta applies). -/
def emptyDaily : DailyResponse := {}

/-- The integer breakdown `c` viewed again as a working (rational)
breakdown, field by field (proof device for relating the two functions). -/
def castBreakdown (c : Consumption) : RawBreakdown where
  totalGallons := c.totalGallons
  showerGallons := c.showerGallons
  toiletGallons := c.toiletGallons
  kitchenGallons := c.kitchenGallons
  dishwasherGallons := c.dishwasherGallons
  laundryGallons := c.laundryGallons
  gardenGallons := c.gardenGallons
  poolGallons := c.poolGallons
  carWashGallons := c.carWashGallons
  energyGallons := c.energyGallons
  shoppingGallons := c.shoppingGallons
  otherGallons := c.otherGallons

/-- Profile used as a concrete input: an efficient dishwasher and an
efficient washing machine, each run once a month, nothing else.  Its raw
categories are 4/30 and 14/30, which each round to 0, while their sum 18/30
rounds to 1. -/
def profileDishLaundry : InitialResponse :=
  { dishwasherType := some "yes_efficient", dishwasherFrequency := some 1,
    laundryType := some "yes_efficient", laundryFrequency := some 1 }

/-- Profile used as a concrete input: a low-flow showerhead and no baths,
giving the raw shower category -63 and a negative raw total. -/
def profileShowerheadOnly : InitialResponse := { appliances := some ["showerhead"] }

/-- Profile used as a concrete input: a low-flow showerhead and 30 baths per
month. -/
def profileShowerheadBaths : InitialResponse :=
  { appliances := some ["showerhead"], bathsPerMonth := some 30 }

/-- The all-absent initial profile. -/
def emptyInitial : InitialResponse := {}

/-- The profile with every absent field replaced by its default: 0 for
numeric fields, `false` for booleans, `"none"` for enumerations, `[]` for
the appliance list (present fields unchanged). -/
def fillInitialDefaults (r : InitialResponse) : InitialResponse where
  appliances := some (r.appliances.getD [])
  bathsPerMonth := some (numVal r.bathsPerMonth)
  dishwasherType := some (r.dishwasherType.getD "none")
  dishwasherFrequency := some (numVal r.dishwasherFrequency)
  laundryType := some (r.laundryType.getD "none")
  laundryFrequency := some (numVal r.laundryFrequency)
  hasGarden := some (r.hasGarden.getD false)
  gardenArea := some (numVal r.gardenArea)
  gardenFrequency := some (numVal r.gardenFrequency)
  hasPool := some (r.hasPool.getD false)
  carWashMethod := some (r.carWashMethod.getD "none")
  carWashFrequency := some (numVal r.carWashFrequency)
  utilityPercentage := some (numVal r.utilityPercentage)
  shoppingHabits := some (r.shoppingHabits.getD "none")

/-- The activity log with every absent numeric field replaced by 0
(present fields unchanged). -/
def fillDailyDefaults (d : DailyResponse) : DailyResponse where
  showerMinutes := some (numVal d.showerMinutes)
  bathroomSinkMinutes := some (numVal d.bathroomSinkMinutes)
  kitchenSinkMinutes := some (numVal d.kitchenSinkMinutes)
  toiletFlushes := some (numVal d.toiletFlushes)
  rainwaterCollected := some (numVal d.rainwaterCollected)
  milesDriven := some (numVal d.milesDriven)
  recycledPaper := some (numVal d.recycledPaper)
  recycledPlastic := some (numVal d.recycledPlastic)
  recycledBottlesCans := some (numVal d.recycledBottlesCans)
  veggiesConsumed := some (numVal d.veggiesConsumed)
  meatConsumed := some (numVal d.meatConsumed)
  petFoodUsed := some (numVal d.petFoodUsed)

/-- Shower delta of step 1 of the Daily Adjuster. -/
def showerDelta (d : DailyResponse) (r : InitialResponse) : ℚ :=
  if numTruthy d.showerMinutes then
    (if (r.appliances.getD []).contains "showerhead" then
      1.8 * numVal d.showerMinutes
    else
      2.5 * numVal d.showerMinutes)
  else 0

/-- Kitchen delta of step 2 (bathroom sink). -/
def bathroomSinkDelta (d : DailyResponse) (r : InitialResponse) : ℚ :=
  if numTruthy d.bathroomSinkMinutes then
    (if (r.appliances.getD []).contains "bathroom_sink" then
      1.5 * numVal d.bathroomSinkMinutes
    else
      2.2 * numVal d.bathroomSinkMinutes)
  else 0

/-- Kitchen delta of step 3 (kitchen sink). -/
def kitchenSinkDelta (d : DailyResponse) (r : InitialResponse) : ℚ :=
  if numTruthy d.kitchenSinkMinutes then
    (if (r.appliances.getD []).contains "kitchen_sink" then
      1.5 * numVal d.kitchenSinkMinutes
    else
      2.2 * numVal d.kitchenSinkMinutes)
  else 0

/-- Toilet delta of step 4. -/
def toiletDelta (d : DailyResponse) (r : InitialResponse) : ℚ :=
  if numTruthy d.toiletFlushes then
    (if (r.appliances.getD []).contains "toilet" then
      1.6 * numVal d.toiletFlushes
    else
      3.5 * numVal d.toiletFlushes)
  else 0

/-- Other-category delta of step 6 (miles driven). -/
def milesDelta (d : DailyResponse) : ℚ :=
  if numTruthy d.milesDriven then 0.165 * numVal d.milesDriven else 0

/-- Other-category delta of step 7 (recycled paper). -/
def paperDelta (d : DailyResponse) : ℚ :=
  if numTruthy d.recycledPaper then 0.04 * numVal d.recycledPaper else 0

/-- Other-category delta of step 10 (vegetables). -/
def veggiesDelta (d : DailyResponse) : ℚ :=
  if numTruthy d.veggiesConsumed then 0.085 * numVal d.veggiesConsumed else 0

/-- Other-category delta of step 11 (meat). -/
def meatDelta (d : DailyResponse) : ℚ :=
  if numTruthy d.meatConsumed then 2 * numVal d.meatConsumed else 0

/-- Other-category delta of step 12 (pet food). -/
def petDelta (d : DailyResponse) : ℚ :=
  if numTruthy d.petFoodUsed then 0.7 * numVal d.petFoodUsed else 0

section Lemmas



theorem jsRound_intCast (n : ℤ) : jsRound (n : ℚ) = n := by
  rw [jsRound, show ((n : ℚ) + 1/2) = (n : ℚ) + (1/2 : ℚ) from rfl,
    Int.floor_int_add]
  norm_num

theorem jsRound_int_add (n : ℤ) (x : ℚ) : jsRound ((n : ℚ) + x) = n + jsRound x := by
  rw [jsRound, jsRound, add_assoc, Int.floor_int_add]

theorem jsRound_nonneg {x : ℚ} (hx : 0 ≤ x) : 0 ≤ jsRound x := by
  have : (0 : ℤ) ≤ ⌊x + 1/2⌋ := Int.floor_nonneg.mpr (by linarith)
  simpa [jsRound] using this

theorem jsRound_mono {x y : ℚ} (h : x ≤ y) : jsRound x ≤ jsRound y :=
  Int.floor_le_floor (by linarith)

theorem jsRound_isJsRoundOf (x : ℚ) : IsJsRoundOf (jsRound x) x := by
  unfold IsJsRoundOf jsRound
  constructor
  · have h := Int.floor_le (x + 1/2)
    linarith
  · have h := Int.lt_floor_add_one (x + 1/2)
    linarith

theorem roundBreakdown_totalGallons (b : RawBreakdown) :
    (roundBreakdown b).totalGallons = jsRound b.totalGallons := rfl

theorem applyCorrection_showerGallons (b : RawBreakdown) :
    (applyCorrection b).showerGallons = b.showerGallons := by
  unfold applyCorrection; split <;> rfl

theorem applyCorrection_toiletGallons (b : RawBreakdown) :
    (applyCorrection b).toiletGallons = b.toiletGallons := by
  unfold applyCorrection; split <;> rfl

theorem applyCorrection_kitchenGallons (b : RawBreakdown) :
    (applyCorrection b).kitchenGallons = b.kitchenGallons := by
  unfold applyCorrection; split <;> rfl

theorem applyCorrection_dishwasherGallons (b : RawBreakdown) :
    (applyCorrection b).dishwasherGallons = b.dishwasherGallons := by
  unfold applyCorrection; split <;> rfl

theorem applyCorrection_laundryGallons (b : RawBreakdown) :
    (applyCorrection b).laundryGallons = b.laundryGallons := by
  unfold applyCorrection; split <;> rfl

theorem applyCorrection_gardenGallons (b : RawBreakdown) :
    (applyCorrection b).gardenGallons = b.gardenGallons := by
  unfold applyCorrection; split <;> rfl

theorem applyCorrection_poolGallons (b : RawBreakdown) :
    (applyCorrection b).poolGallons = b.poolGallons := by
  unfold applyCorrection; split <;> rfl

theorem applyCorrection_carWashGallons (b : RawBreakdown) :
    (applyCorrection b).carWashGallons = b.carWashGallons := by
  unfold applyCorrection; split <;> rfl

theorem applyCorrection_energyGallons (b : RawBreakdown) :
    (applyCorrection b).energyGallons = b.energyGallons := by
  unfold applyCorrection; split <;> rfl

theorem applyCorrection_shoppingGallons (b : RawBreakdown) :
    (applyCorrection b).shoppingGallons = b.shoppingGallons := by
  unfold applyCorrection; split <;> rfl

theorem applyCorrection_otherGallons (b : RawBreakdown) :
    (applyCorrection b).otherGallons =
      b.otherGallons + if b.totalGallons < 0 then |b.totalGallons| else 0 := by
  unfold applyCorrection; split <;> simp

theorem applyCorrection_totalGallons (b : RawBreakdown) :
    (applyCorrection b).totalGallons = max 0 b.totalGallons := by
  unfold applyCorrection
  split
  · simp only
    rw [max_eq_left (by linarith)]
  · rw [max_eq_right (by linarith)]

theorem recomputeTotal_totalGallons (b : RawBreakdown) :
    (recomputeTotal b).totalGallons = rawCategorySum b := rfl

theorem initialCategories_totalGallons (r : InitialResponse) :
    (initialCategories r).totalGallons = rawCategorySum (initialCategories r) := rfl

theorem rawCategorySum_update (b : RawBreakdown) (x y : ℚ) :
    rawCategorySum { b with otherGallons := x, totalGallons := y } =
      rawCategorySum b - b.otherGallons + x := by
  simp only [rawCategorySum]; ring

theorem applyCorrection_total_eq_sum {b : RawBreakdown}
    (h : b.totalGallons = rawCategorySum b) :
    (applyCorrection b).totalGallons = rawCategorySum (applyCorrection b) := by
  unfold applyCorrection
  split
  · next hneg =>
    rw [rawCategorySum_update]
    simp only
    rw [abs_of_neg hneg, h]
    ring
  · exact h

end Lemmas

theorem rawCategorySum_castBreakdown (c : Consumption) :
    rawCategorySum (castBreakdown c) = (categorySum c : ℚ) := by
  simp only [rawCategorySum, castBreakdown, categorySum]
  push_cast
  ring

/-- On the all-absent activity log every truthiness guard of the Daily
Adjuster is false, so steps 1-12 leave every field of the baseline
unchanged. -/
theorem dailyAdjusted_empty (r : InitialResponse) (b : Consumption) :
    dailyAdjusted emptyDaily r b = castBreakdown b := by
  simp [dailyAdjusted, emptyDaily, numTruthy, numVal, castBreakdown]

/-- C1: the Daily Adjuster's output is unchanged, in every category and in
the total, when `rainwaterCollected`, `recycledPlastic` and
`recycledBottlesCans` are set to zero: their direct total-only subtractions
are discarded by the recomputation of the total as the sum of the eleven
categories, so these fields affect no persisted value. -/
theorem C1_recycling_rainwater_no_effect (d : DailyResponse) (r : InitialResponse) :
    calculateDailyWaterConsumption d r =
      calculateDailyWaterConsumption
        { d with rainwaterCollected := some 0, recycledPlastic := some 0,
                 recycledBottlesCans := some 0 } r := rfl

/-- C2 counterexample: for the dishwasher-and-laundry profile the persisted
total (1) differs from the sum of the eleven persisted category values (0),
because the total and the categories are rounded independently. -/
theorem C2_counterexample :
    ¬ (calculateInitialWaterConsumption profileDishLaundry).totalGallons =
        categorySum (calculateInitialWaterConsumption profileDishLaundry) := by
  norm_num [calculateInitialWaterConsumption, roundBreakdown, applyCorrection,
    initialCategories, jsRound, numVal, numTruthy, boolTruthy, categorySum,
    profileDishLaundry]

/-- C2 amended: for every profile and activity log, the *pre-rounding*
total of both functions equals the sum of the eleven pre-rounding category
values post the negative-total correction, and the persisted total is the
rounding of that category sum; the persisted total may however differ from
the sum of the individually rounded persisted categories. -/
theorem C2_total_eq_category_sum (d : DailyResponse) (r : InitialResponse) :
    ((applyCorrection (initialCategories r)).totalGallons =
        rawCategorySum (applyCorrection (initialCategories r)) ∧
      (calculateInitialWaterConsumption r).totalGallons =
        jsRound (rawCategorySum (applyCorrection (initialCategories r)))) ∧
    ((applyCorrection (recomputeTotal (dailyAdjusted d r
          (calculateInitialWaterConsumption r)))).totalGallons =
        rawCategorySum (applyCorrection (recomputeTotal (dailyAdjusted d r
          (calculateInitialWaterConsumption r)))) ∧
      (calculateDailyWaterConsumption d r).totalGallons =
        jsRound (rawCategorySum (applyCorrection (recomputeTotal (dailyAdjusted d r
          (calculateInitialWaterConsumption r)))))) := by
  have h1 := applyCorrection_total_eq_sum (initialCategories_totalGallons r)
  have h2 := applyCorrection_total_eq_sum
    (recomputeTotal_totalGallons
      (dailyAdjusted d r (calculateInitialWaterConsumption r)))
  refine ⟨⟨h1, ?_⟩, ⟨h2, ?_⟩⟩
  · rw [← h1]; rfl
  · rw [← h2]; rfl

/-- C3: both functions return a non-negative persisted total, and whenever
the raw running total is negative its absolute value is added to the
`other` category and the total is clamped to 0 (the whole deficit absorbed
into `other`). -/
theorem C3_total_nonneg_deficit_into_other (d : DailyResponse) (r : InitialResponse) :
    0 ≤ (calculateInitialWaterConsumption r).totalGallons ∧
    0 ≤ (calculateDailyWaterConsumption d r).totalGallons ∧
    ((initialCategories r).totalGallons < 0 →
      applyCorrection (initialCategories r) =
        { initialCategories r with
            otherGallons := (initialCategories r).otherGallons +
              |(initialCategories r).totalGallons|,
            totalGallons := 0 }) ∧
    ((recomputeTotal (dailyAdjusted d r
          (calculateInitialWaterConsumption r))).totalGallons < 0 →
      applyCorrection (recomputeTotal (dailyAdjusted d r
          (calculateInitialWaterConsumption r))) =
        { recomputeTotal (dailyAdjusted d r (calculateInitialWaterConsumption r)) with
            otherGallons := (recomputeTotal (dailyAdjusted d r
                (calculateInitialWaterConsumption r))).otherGallons +
              |(recomputeTotal (dailyAdjusted d r
                (calculateInitialWaterConsumption r))).totalGallons|,
            totalGallons := 0 }) := by
  refine ⟨?_, ?_, ?_, ?_⟩
  · show 0 ≤ jsRound (applyCorrection (initialCategories r)).totalGallons
    rw [applyCorrection_totalGallons]
    exact jsRound_nonneg (le_max_left _ _)
  · show 0 ≤ jsRound (applyCorrection (recomputeTotal (dailyAdjusted d r
        (calculateInitialWaterConsumption r)))).totalGallons
    rw [applyCorrection_totalGallons]
    exact jsRound_nonneg (le_max_left _ _)
  · intro hneg
    unfold applyCorrection
    rw [if_pos hneg]
  · intro hneg
    unfold applyCorrection
    rw [if_pos hneg]

/-- C3 witness: the showerhead-only profile has raw total -63 < 0; the
correction moves 63 into `other` and clamps the total, and both persisted
totals are non-negative. -/
theorem C3_witness :
    (0 ≤ (calculateInitialWaterConsumption profileShowerheadOnly).totalGallons) ∧
    applyCorrection (initialCategories profileShowerheadOnly) =
      { initialCategories profileShowerheadOnly with
          otherGallons := (initialCategories profileShowerheadOnly).otherGallons +
            |(initialCategories profileShowerheadOnly).totalGallons|,
          totalGallons := 0 } :=
  ⟨(C3_total_nonneg_deficit_into_other emptyDaily profileShowerheadOnly).1,
   (C3_total_nonneg_deficit_into_other emptyDaily profileShowerheadOnly).2.2.1
    (by norm_num [initialCategories, numVal, numTruthy, boolTruthy,
      profileShowerheadOnly])⟩

/-- C5: with a low-flow showerhead and 30 baths per month the raw shower
category is the flat -63 plus 80 × 30 / 30 = 80, and the persisted shower
category is round(-63 + 80) = 17: the showerhead subtraction is not divided
by 30, the bath term is. -/
theorem C5_showerhead_flat_baths_normalized :
    (initialCategories profileShowerheadBaths).showerGallons = -63 + 80 ∧
    (calculateInitialWaterConsumption profileShowerheadBaths).showerGallons = 17 := by
  norm_num [calculateInitialWaterConsumption, roundBreakdown, applyCorrection,
    initialCategories, jsRound, numVal, numTruthy, boolTruthy,
    profileShowerheadBaths]

/-- C7: every value either function returns is an integer (the codomain of
`jsRound`), and each of the twelve returned fields is the nearest-integer
rounding (half up) of the corresponding working value obtained after the
non-negativity correction. -/
theorem C7_all_fields_rounded_after_correction (d : DailyResponse) (r : InitialResponse) :
    IsRoundedImageOf (calculateInitialWaterConsumption r)
      (applyCorrection (initialCategories r)) ∧
    IsRoundedImageOf (calculateDailyWaterConsumption d r)
      (applyCorrection (recomputeTotal (dailyAdjusted d r
        (calculateInitialWaterConsumption r)))) :=
  ⟨⟨jsRound_isJsRoundOf _, jsRound_isJsRoundOf _, jsRound_isJsRoundOf _,
    jsRound_isJsRoundOf _, jsRound_isJsRoundOf _, jsRound_isJsRoundOf _,
    jsRound_isJsRoundOf _, jsRound_isJsRoundOf _, jsRound_isJsRoundOf _,
    jsRound_isJsRoundOf _, jsRound_isJsRoundOf _, jsRound_isJsRoundOf _⟩,
   ⟨jsRound_isJsRoundOf _, jsRound_isJsRoundOf _, jsRound_isJsRoundOf _,
    jsRound_isJsRoundOf _, jsRound_isJsRoundOf _, jsRound_isJsRoundOf _,
    jsRound_isJsRoundOf _, jsRound_isJsRoundOf _, jsRound_isJsRoundOf _,
    jsRound_isJsRoundOf _, jsRound_isJsRoundOf _, jsRound_isJsRoundOf _⟩⟩

/-- C4 counterexample: for the dishwasher-and-laundry profile the Daily
Adjuster on the all-absent log returns total 0, while the Baseline Estimator
returns total 1 (the adjuster recomputes the total from the already-rounded
baseline categories), so the two breakdowns are not identical. -/
theorem C4_counterexample :
    ¬ calculateDailyWaterConsumption emptyDaily profileDishLaundry =
        calculateInitialWaterConsumption profileDishLaundry := by
  intro h
  have h' := congrArg Consumption.totalGallons h
  norm_num [calculateDailyWaterConsumption, calculateInitialWaterConsumption,
    roundBreakdown, applyCorrection, recomputeTotal, dailyAdjusted,
    rawCategorySum, initialCategories, jsRound, numVal, numTruthy, boolTruthy,
    profileDishLaundry, emptyDaily] at h'

/-- C4 amended: on an all-absent activity log the Daily Adjuster reproduces
the Baseline Estimator's value in every category, except that the deficit
`max 0 (-(sum of the baseline's rounded categories))` is added to `other`;
its total is the clamped sum of the baseline's rounded categories, which can
differ from the baseline's total because the baseline rounds its total and
its categories independently. -/
theorem C4_empty_log_vs_baseline (r : InitialResponse) :
    (calculateDailyWaterConsumption emptyDaily r).showerGallons =
      (calculateInitialWaterConsumption r).showerGallons ∧
    (calculateDailyWaterConsumption emptyDaily r).toiletGallons =
      (calculateInitialWaterConsumption r).toiletGallons ∧
    (calculateDailyWaterConsumption emptyDaily r).kitchenGallons =
      (calculateInitialWaterConsumption r).kitchenGallons ∧
    (calculateDailyWaterConsumption emptyDaily r).dishwasherGallons =
      (calculateInitialWaterConsumption r).dishwasherGallons ∧
    (calculateDailyWaterConsumption emptyDaily r).laundryGallons =
      (calculateInitialWaterConsumption r).laundryGallons ∧
    (calculateDailyWaterConsumption emptyDaily r).gardenGallons =
      (calculateInitialWaterConsumption r).gardenGallons ∧
    (calculateDailyWaterConsumption emptyDaily r).poolGallons =
      (calculateInitialWaterConsumption r).poolGallons ∧
    (calculateDailyWaterConsumption emptyDaily r).carWashGallons =
      (calculateInitialWaterConsumption r).carWashGallons ∧
    (calculateDailyWaterConsumption emptyDaily r).energyGallons =
      (calculateInitialWaterConsumption r).energyGallons ∧
    (calculateDailyWaterConsumption emptyDaily r).shoppingGallons =
      (calculateInitialWaterConsumption r).shoppingGallons ∧
    (calculateDailyWaterConsumption emptyDaily r).otherGallons =
      (calculateInitialWaterConsumption r).otherGallons +
        max 0 (-(categorySum (calculateInitialWaterConsumption r))) ∧
    (calculateDailyWaterConsumption emptyDaily r).totalGallons =
      max 0 (categorySum (calculateInitialWaterConsumption r)) := by
  set b := calculateInitialWaterConsumption r with hb
  have hsum : (recomputeTotal (dailyAdjusted emptyDaily r b)).totalGallons =
      ((categorySum b : ℤ) : ℚ) := by
    rw [recomputeTotal_totalGallons, dailyAdjusted_empty,
      rawCategorySum_castBreakdown]
  refine ⟨?_, ?_, ?_, ?_, ?_, ?_, ?_, ?_, ?_, ?_, ?_, ?_⟩
  · show jsRound (applyCorrection (recomputeTotal (dailyAdjusted emptyDaily r
      b))).showerGallons = _
    rw [applyCorrection_showerGallons]
    rw [show (recomputeTotal (dailyAdjusted emptyDaily r b)).showerGallons =
      (dailyAdjusted emptyDaily r b).showerGallons from rfl]
    rw [dailyAdjusted_empty]
    exact jsRound_intCast _
  · show jsRound (applyCorrection (recomputeTotal (dailyAdjusted emptyDaily r
      b))).toiletGallons = _
    rw [applyCorrection_toiletGallons]
    rw [show (recomputeTotal (dailyAdjusted emptyDaily r b)).toiletGallons =
      (dailyAdjusted emptyDaily r b).toiletGallons from rfl]
    rw [dailyAdjusted_empty]
    exact jsRound_intCast _
  · show jsRound (applyCorrection (recomputeTotal (dailyAdjusted emptyDaily r
      b))).kitchenGallons = _
    rw [applyCorrection_kitchenGallons]
    rw [show (recomputeTotal (dailyAdjusted emptyDaily r b)).kitchenGallons =
      (dailyAdjusted emptyDaily r b).kitchenGallons from rfl]
    rw [dailyAdjusted_empty]
    exact jsRound_intCast _
  · show jsRound (applyCorrection (recomputeTotal (dailyAdjusted emptyDaily r
      b))).dishwasherGallons = _
    rw [applyCorrection_dishwasherGallons]
    rw [show (recomputeTotal (dailyAdjusted emptyDaily r b)).dishwasherGallons =
      (dailyAdjusted emptyDaily r b).dishwasherGallons from rfl]
    rw [dailyAdjusted_empty]
    exact jsRound_intCast _
  · show jsRound (applyCorrection (recomputeTotal (dailyAdjusted emptyDaily r
      b))).laundryGallons = _
    rw [applyCorrection_laundryGallons]
    rw [show (recomputeTotal (dailyAdjusted emptyDaily r b)).laundryGallons =
      (dailyAdjusted emptyDaily r b).laundryGallons from rfl]
    rw [dailyAdjusted_empty]
    exact jsRound_intCast _
  · show jsRound (applyCorrection (recomputeTotal (dailyAdjusted emptyDaily r
      b))).gardenGallons = _
    rw [applyCorrection_gardenGallons]
    rw [show (recomputeTotal (dailyAdjusted emptyDaily r b)).gardenGallons =
      (dailyAdjusted emptyDaily r b).gardenGallons from rfl]
    rw [dailyAdjusted_empty]
    exact jsRound_intCast _
  · show jsRound (applyCorrection (recomputeTotal (dailyAdjusted emptyDaily r
      b))).poolGallons = _
    rw [applyCorrection_poolGallons]
    rw [show (recomputeTotal (dailyAdjusted emptyDaily r b)).poolGallons =
      (dailyAdjusted emptyDaily r b).poolGallons from rfl]
    rw [dailyAdjusted_empty]
    exact jsRound_intCast _
  · show jsRound (applyCorrection (recomputeTotal (dailyAdjusted emptyDaily r
      b))).carWashGallons = _
    rw [applyCorrection_carWashGallons]
    rw [show (recomputeTotal (dailyAdjusted emptyDaily r b)).carWashGallons =
      (dailyAdjusted emptyDaily r b).carWashGallons from rfl]
    rw [dailyAdjusted_empty]
    exact jsRound_intCast _
  · show jsRound (applyCorrection (recomputeTotal (dailyAdjusted emptyDaily r
      b))).energyGallons = _
    rw [applyCorrection_energyGallons]
    rw [show (recomputeTotal (dailyAdjusted emptyDaily r b)).energyGallons =
      (dailyAdjusted emptyDaily r b).energyGallons from rfl]
    rw [dailyAdjusted_empty]
    exact jsRound_intCast _
  · show jsRound (applyCorrection (recomputeTotal (dailyAdjusted emptyDaily r
      b))).shoppingGallons = _
    rw [applyCorrection_shoppingGallons]
    rw [show (recomputeTotal (dailyAdjusted emptyDaily r b)).shoppingGallons =
      (dailyAdjusted emptyDaily r b).shoppingGallons from rfl]
    rw [dailyAdjusted_empty]
    exact jsRound_intCast _
  · show jsRound (applyCorrection (recomputeTotal (dailyAdjusted emptyDaily r
      b))).otherGallons = _
    rw [applyCorrection_otherGallons, hsum]
    rw [show (recomputeTotal (dailyAdjusted emptyDaily r b)).otherGallons =
      (dailyAdjusted emptyDaily r b).otherGallons from rfl]
    rw [dailyAdjusted_empty]
    rw [show (castBreakdown b).otherGallons = (b.otherGallons : ℚ) from rfl]
    rw [show (if ((categorySum b : ℤ) : ℚ) < 0 then |((categorySum b : ℤ) : ℚ)|
        else 0) = ((max 0 (-(categorySum b)) : ℤ) : ℚ) by
      split
      · next hlt =>
        have h2 : categorySum b < 0 := by exact_mod_cast hlt
        rw [abs_of_neg hlt, max_eq_right (by omega : (0:ℤ) ≤ -(categorySum b))]
        push_cast
        ring
      · next hge =>
        have : (0:ℚ) ≤ ((categorySum b : ℤ) : ℚ) := le_of_not_lt hge
        have h2 : (0:ℤ) ≤ categorySum b := by exact_mod_cast this
        rw [max_eq_left (by omega)]
        norm_num]
    rw [show ((b.otherGallons : ℚ) + ((max 0 (-(categorySum b)) : ℤ) : ℚ)) =
      (((b.otherGallons + max 0 (-(categorySum b))) : ℤ) : ℚ) by push_cast; ring]
    exact jsRound_intCast _
  · show jsRound (applyCorrection (recomputeTotal (dailyAdjusted emptyDaily r
      b))).totalGallons = _
    rw [applyCorrection_totalGallons, hsum]
    rw [show (max 0 (((categorySum b : ℤ) : ℚ))) =
      ((max 0 (categorySum b) : ℤ) : ℚ) by rw [Int.cast_max]; norm_num]
    exact jsRound_intCast _

/-- Step 1 of the Daily Adjuster in closed form: the working shower value is
the baseline's (rounded) shower value plus 1.8 gallons per logged shower
minute when the `showerhead` appliance tag is present, else 2.5 per minute
(the truthiness guard only short-circuits the value 0, where the delta is 0
anyway). -/
theorem dailyAdjusted_showerGallons (d : DailyResponse) (r : InitialResponse)
    (b : Consumption) (m : ℚ) :
    (dailyAdjusted { d with showerMinutes := some m } r b).showerGallons =
      (b.showerGallons : ℚ) +
        (if (r.appliances.getD []).contains "showerhead" then (1.8 : ℚ) else 2.5) * m := by
  by_cases hm : m = 0
  · subst hm
    simp [dailyAdjusted, numTruthy, numVal]
  · simp only [dailyAdjusted, numTruthy, numVal]
    simp [hm]

/-- C6: without the `showerhead` tag, raising `showerMinutes` by 1 raises
the pre-rounding shower value by exactly 2.5, and a log with
`showerMinutes = 10` makes the persisted shower category exactly the
baseline's shower value plus 25; with the tag, the pre-rounding rate is 1.8
per minute. -/
theorem C6_shower_rates (d : DailyResponse) (r : InitialResponse) (m : ℚ) :
    ((r.appliances.getD []).contains "showerhead" = false →
      (dailyAdjusted { d with showerMinutes := some (m + 1) } r
          (calculateInitialWaterConsumption r)).showerGallons =
        (dailyAdjusted { d with showerMinutes := some m } r
          (calculateInitialWaterConsumption r)).showerGallons + 2.5 ∧
      (calculateDailyWaterConsumption { d with showerMinutes := some 10 }
          r).showerGallons =
        (calculateInitialWaterConsumption r).showerGallons + 25) ∧
    ((r.appliances.getD []).contains "showerhead" = true →
      (dailyAdjusted { d with showerMinutes := some m } r
          (calculateInitialWaterConsumption r)).showerGallons =
        ((calculateInitialWaterConsumption r).showerGallons : ℚ) + 1.8 * m) := by
  constructor
  · intro h
    constructor
    · rw [dailyAdjusted_showerGallons, dailyAdjusted_showerGallons, h]
      simp only [Bool.false_eq_true, if_false]
      ring
    · show jsRound (applyCorrection (recomputeTotal
        (dailyAdjusted { d with showerMinutes := some 10 } r
          (calculateInitialWaterConsumption r)))).showerGallons = _
      rw [applyCorrection_showerGallons]
      rw [show (recomputeTotal (dailyAdjusted { d with showerMinutes := some 10 } r
          (calculateInitialWaterConsumption r))).showerGallons =
        (dailyAdjusted { d with showerMinutes := some 10 } r
          (calculateInitialWaterConsumption r)).showerGallons from rfl]
      rw [dailyAdjusted_showerGallons, h]
      simp only [Bool.false_eq_true, if_false]
      rw [show (((calculateInitialWaterConsumption r).showerGallons : ℚ) +
          (2.5 : ℚ) * 10) =
        (((calculateInitialWaterConsumption r).showerGallons + 25 : ℤ) : ℚ) by
          push_cast
          ring]
      exact jsRound_intCast _
  · intro h
    rw [dailyAdjusted_showerGallons, h]
    simp

/-- C6 witness: at the all-absent profile (no tag) with m = 3 the 2.5 rate
and the +25 shift hold, and at the showerhead-only profile with m = 3 the
1.8 rate holds. -/
theorem C6_witness :
    ((dailyAdjusted { emptyDaily with showerMinutes := some (3 + 1) } emptyInitial
        (calculateInitialWaterConsumption emptyInitial)).showerGallons =
      (dailyAdjusted { emptyDaily with showerMinutes := some 3 } emptyInitial
        (calculateInitialWaterConsumption emptyInitial)).showerGallons + 2.5 ∧
     (calculateDailyWaterConsumption { emptyDaily with showerMinutes := some 10 }
        emptyInitial).showerGallons =
      (calculateInitialWaterConsumption emptyInitial).showerGallons + 25) ∧
    (dailyAdjusted { emptyDaily with showerMinutes := some 3 } profileShowerheadOnly
        (calculateInitialWaterConsumption profileShowerheadOnly)).showerGallons =
      ((calculateInitialWaterConsumption profileShowerheadOnly).showerGallons : ℚ) +
        1.8 * 3 :=
  ⟨(C6_shower_rates emptyDaily emptyInitial 3).1 rfl,
   (C6_shower_rates emptyDaily profileShowerheadOnly 3).2 rfl⟩

/-- Comparing an enum field defaulted to `"none"` against any recognized
literal other than `"none"` agrees with comparing the original optional
field. -/
theorem beq_some_getD_none (o : Option String) (s : String)
    (h : ("none" == s) = false) :
    ((some (o.getD "none") : Option String) == some s) = (o == some s) := by
  cases o with
  | none => simpa using h
  | some t => rfl

/-- The Baseline Estimator's category computation cannot distinguish a
profile from its defaulted form. -/
theorem initialCategories_fill (r : InitialResponse) :
    initialCategories (fillInitialDefaults r) = initialCategories r := by
  simp only [initialCategories, fillInitialDefaults,
    beq_some_getD_none r.dishwasherType "yes_efficient" rfl,
    beq_some_getD_none r.dishwasherType "yes_not_efficient" rfl,
    beq_some_getD_none r.laundryType "yes_efficient" rfl,
    beq_some_getD_none r.laundryType "yes_not_efficient" rfl,
    beq_some_getD_none r.carWashMethod "garden_hose" rfl,
    beq_some_getD_none r.carWashMethod "drive_through" rfl,
    beq_some_getD_none r.carWashMethod "self_service" rfl,
    beq_some_getD_none r.shoppingHabits "basics" rfl,
    beq_some_getD_none r.shoppingHabits "moderate" rfl,
    beq_some_getD_none r.shoppingHabits "addict" rfl]
  rfl

/-- The Daily Adjuster's delta computation cannot distinguish inputs from
their defaulted forms (it only reads numeric fields and the appliance
list). -/
theorem dailyAdjusted_fill (d : DailyResponse) (r : InitialResponse) (b : Consumption) :
    dailyAdjusted (fillDailyDefaults d) (fillInitialDefaults r) b =
      dailyAdjusted d r b := rfl

/-- C8: both functions are total on inputs with absent fields (they are
functions in the embedding) and return exactly what they return when every
absent numeric field is replaced by 0, every absent boolean by `false`,
every absent enumeration by `"none"`, and an absent appliance list by the
empty list. -/
theorem C8_absent_fields_behave_as_defaults (d : DailyResponse) (r : InitialResponse) :
    calculateInitialWaterConsumption (fillInitialDefaults r) =
      calculateInitialWaterConsumption r ∧
    calculateDailyWaterConsumption (fillDailyDefaults d) (fillInitialDefaults r) =
      calculateDailyWaterConsumption d r := by
  have h1 : calculateInitialWaterConsumption (fillInitialDefaults r) =
      calculateInitialWaterConsumption r := by
    unfold calculateInitialWaterConsumption
    rw [initialCategories_fill]
  refine ⟨h1, ?_⟩
  unfold calculateDailyWaterConsumption
  rw [h1, dailyAdjusted_fill]

theorem dailyAdjusted_shower_eq (d : DailyResponse) (r : InitialResponse)
    (b : Consumption) :
    (dailyAdjusted d r b).showerGallons =
      (b.showerGallons : ℚ) + showerDelta d r := rfl

theorem dailyAdjusted_kitchen_eq (d : DailyResponse) (r : InitialResponse)
    (b : Consumption) :
    (dailyAdjusted d r b).kitchenGallons =
      (b.kitchenGallons : ℚ) + bathroomSinkDelta d r + kitchenSinkDelta d r := rfl

theorem dailyAdjusted_toilet_eq (d : DailyResponse) (r : InitialResponse)
    (b : Consumption) :
    (dailyAdjusted d r b).toiletGallons =
      (b.toiletGallons : ℚ) + toiletDelta d r := rfl

theorem dailyAdjusted_other_eq (d : DailyResponse) (r : InitialResponse)
    (b : Consumption) :
    (dailyAdjusted d r b).otherGallons =
      (b.otherGallons : ℚ) + milesDelta d + paperDelta d + veggiesDelta d +
        meatDelta d + petDelta d := rfl

theorem le_jsRound_int_add (n : ℤ) {x : ℚ} (hx : 0 ≤ x) :
    n ≤ jsRound ((n : ℚ) + x) := by
  rw [jsRound_int_add]
  have := jsRound_nonneg hx
  omega

theorem nested_rate_nonneg {c1 c2 : Prop} [Decidable c1] [Decidable c2]
    {k1 k2 v : ℚ} (hk1 : 0 ≤ k1) (hk2 : 0 ≤ k2) (hv : 0 ≤ v) :
    0 ≤ if c1 then (if c2 then k1 * v else k2 * v) else 0 := by
  split_ifs
  · exact mul_nonneg hk1 hv
  · exact mul_nonneg hk2 hv
  · exact le_rfl

theorem rate_nonneg {c : Prop} [Decidable c] {k v : ℚ} (hk : 0 ≤ k)
    (hv : 0 ≤ v) : 0 ≤ if c then k * v else 0 := by
  split_ifs
  · exact mul_nonneg hk hv
  · exact le_rfl

/-- C9: for every profile and every non-negative activity log, each of the
eleven persisted categories the Daily Adjuster returns is at least the
corresponding persisted category of the Baseline Estimator: every delta
reaching a category is a non-negative addition (the only subtractions hit
the intermediate total, which is recomputed), so logged activity never
lowers a category below baseline. -/
theorem C9_categories_never_below_baseline (d : DailyResponse) (r : InitialResponse)
    (h : DailyNonneg d) :
    (calculateInitialWaterConsumption r).showerGallons ≤
      (calculateDailyWaterConsumption d r).showerGallons ∧
    (calculateInitialWaterConsumption r).toiletGallons ≤
      (calculateDailyWaterConsumption d r).toiletGallons ∧
    (calculateInitialWaterConsumption r).kitchenGallons ≤
      (calculateDailyWaterConsumption d r).kitchenGallons ∧
    (calculateInitialWaterConsumption r).dishwasherGallons ≤
      (calculateDailyWaterConsumption d r).dishwasherGallons ∧
    (calculateInitialWaterConsumption r).laundryGallons ≤
      (calculateDailyWaterConsumption d r).laundryGallons ∧
    (calculateInitialWaterConsumption r).gardenGallons ≤
      (calculateDailyWaterConsumption d r).gardenGallons ∧
    (calculateInitialWaterConsumption r).poolGallons ≤
      (calculateDailyWaterConsumption d r).poolGallons ∧
    (calculateInitialWaterConsumption r).carWashGallons ≤
      (calculateDailyWaterConsumption d r).carWashGallons ∧
    (calculateInitialWaterConsumption r).energyGallons ≤
      (calculateDailyWaterConsumption d r).energyGallons ∧
    (calculateInitialWaterConsumption r).shoppingGallons ≤
      (calculateDailyWaterConsumption d r).shoppingGallons ∧
    (calculateInitialWaterConsumption r).otherGallons ≤
      (calculateDailyWaterConsumption d r).otherGallons := by
  obtain ⟨h1, h2, h3, h4, h5, h6, h7, h8, h9, h10, h11, h12⟩ := h
  set b := calculateInitialWaterConsumption r with hb
  refine ⟨?_, ?_, ?_, ?_, ?_, ?_, ?_, ?_, ?_, ?_, ?_⟩
  · show b.showerGallons ≤ jsRound (applyCorrection (recomputeTotal
      (dailyAdjusted d r b))).showerGallons
    rw [applyCorrection_showerGallons,
      show (recomputeTotal (dailyAdjusted d r b)).showerGallons =
        (dailyAdjusted d r b).showerGallons from rfl,
      dailyAdjusted_shower_eq]
    exact le_jsRound_int_add _
      (by unfold showerDelta
          exact nested_rate_nonneg (by norm_num) (by norm_num) h1)
  · show b.toiletGallons ≤ jsRound (applyCorrection (recomputeTotal
      (dailyAdjusted d r b))).toiletGallons
    rw [applyCorrection_toiletGallons,
      show (recomputeTotal (dailyAdjusted d r b)).toiletGallons =
        (dailyAdjusted d r b).toiletGallons from rfl,
      dailyAdjusted_toilet_eq]
    exact le_jsRound_int_add _
      (by unfold toiletDelta
          exact nested_rate_nonneg (by norm_num) (by norm_num) h4)
  · show b.kitchenGallons ≤ jsRound (applyCorrection (recomputeTotal
      (dailyAdjusted d r b))).kitchenGallons
    rw [applyCorrection_kitchenGallons,
      show (recomputeTotal (dailyAdjusted d r b)).kitchenGallons =
        (dailyAdjusted d r b).kitchenGallons from rfl,
      dailyAdjusted_kitchen_eq, add_assoc]
    refine le_jsRound_int_add _ (add_nonneg ?_ ?_)
    · unfold bathroomSinkDelta
      exact nested_rate_nonneg (by norm_num) (by norm_num) h2
    · unfold kitchenSinkDelta
      exact nested_rate_nonneg (by norm_num) (by norm_num) h3
  · show b.dishwasherGallons ≤ jsRound (applyCorrection (recomputeTotal
      (dailyAdjusted d r b))).dishwasherGallons
    rw [applyCorrection_dishwasherGallons,
      show (recomputeTotal (dailyAdjusted d r b)).dishwasherGallons =
        ((b.dishwasherGallons : ℚ)) from rfl, jsRound_intCast]
  · show b.laundryGallons ≤ jsRound (applyCorrection (recomputeTotal
      (dailyAdjusted d r b))).laundryGallons
    rw [applyCorrection_laundryGallons,
      show (recomputeTotal (dailyAdjusted d r b)).laundryGallons =
        ((b.laundryGallons : ℚ)) from rfl, jsRound_intCast]
  · show b.gardenGallons ≤ jsRound (applyCorrection (recomputeTotal
      (dailyAdjusted d r b))).gardenGallons
    rw [applyCorrection_gardenGallons,
      show (recomputeTotal (dailyAdjusted d r b)).gardenGallons =
        ((b.gardenGallons : ℚ)) from rfl, jsRound_intCast]
  · show b.poolGallons ≤ jsRound (applyCorrection (recomputeTotal
      (dailyAdjusted d r b))).poolGallons
    rw [applyCorrection_poolGallons,
      show (recomputeTotal (dailyAdjusted d r b)).poolGallons =
        ((b.poolGallons : ℚ)) from rfl, jsRound_intCast]
  · show b.carWashGallons ≤ jsRound (applyCorrection (recomputeTotal
      (dailyAdjusted d r b))).carWashGallons
    rw [applyCorrection_carWashGallons,
      show (recomputeTotal (dailyAdjusted d r b)).carWashGallons =
        ((b.carWashGallons : ℚ)) from rfl, jsRound_intCast]
  · show b.energyGallons ≤ jsRound (applyCorrection (recomputeTotal
      (dailyAdjusted d r b))).energyGallons
    rw [applyCorrection_energyGallons,
      show (recomputeTotal (dailyAdjusted d r b)).energyGallons =
        ((b.energyGallons : ℚ)) from rfl, jsRound_intCast]
  · show b.shoppingGallons ≤ jsRound (applyCorrection (recomputeTotal
      (dailyAdjusted d r b))).shoppingGallons
    rw [applyCorrection_shoppingGallons,
      show (recomputeTotal (dailyAdjusted d r b)).shoppingGallons =
        ((b.shoppingGallons : ℚ)) from rfl, jsRound_intCast]
  · show b.otherGallons ≤ jsRound (applyCorrection (recomputeTotal
      (dailyAdjusted d r b))).otherGallons
    rw [applyCorrection_otherGallons,
      show (recomputeTotal (dailyAdjusted d r b)).otherGallons =
        (dailyAdjusted d r b).otherGallons from rfl,
      dailyAdjusted_other_eq]
    rw [show ((b.otherGallons : ℚ) + milesDelta d + paperDelta d +
        veggiesDelta d + meatDelta d + petDelta d +
        (if (recomputeTotal (dailyAdjusted d r b)).totalGallons < 0 then
          |(recomputeTotal (dailyAdjusted d r b)).totalGallons| else 0)) =
      ((b.otherGallons : ℚ) + (milesDelta d + paperDelta d +
        veggiesDelta d + meatDelta d + petDelta d +
        (if (recomputeTotal (dailyAdjusted d r b)).totalGallons < 0 then
          |(recomputeTotal (dailyAdjusted d r b)).totalGallons| else 0))) by ring]
    refine le_jsRound_int_add _ ?_
    have hm : 0 ≤ milesDelta d := by
      unfold milesDelta; exact rate_nonneg (by norm_num) h6
    have hp : 0 ≤ paperDelta d := by
      unfold paperDelta; exact rate_nonneg (by norm_num) h7
    have hv : 0 ≤ veggiesDelta d := by
      unfold veggiesDelta; exact rate_nonneg (by norm_num) h10
    have hme : 0 ≤ meatDelta d := by
      unfold meatDelta; exact rate_nonneg (by norm_num) h11
    have hpe : 0 ≤ petDelta d := by
      unfold petDelta; exact rate_nonneg (by norm_num) h12
    have hite : (0:ℚ) ≤ if (recomputeTotal (dailyAdjusted d r b)).totalGallons < 0
        then |(recomputeTotal (dailyAdjusted d r b)).totalGallons| else 0 := by
      split_ifs
      · exact abs_nonneg _
      · exact le_rfl
    linarith

/-- C9 witness: the all-absent activity log is non-negative, and on it (with
the all-absent profile) the adjusted shower category is at least the
baseline's. -/
theorem C9_witness :
    (calculateInitialWaterConsumption emptyInitial).showerGallons ≤
      (calculateDailyWaterConsumption emptyDaily emptyInitial).showerGallons :=
  (C9_categories_never_below_baseline emptyDaily emptyInitial
    (by refine ⟨?_, ?_, ?_, ?_, ?_, ?_, ?_, ?_, ?_, ?_, ?_, ?_⟩ <;> norm_num [numVal, emptyDaily])).1

/-- Two distinct present string values compare unequal under `==`. -/
theorem beq_some_of_ne {s t : String} (h : s ≠ t) :
    ((some s : Option String) == some t) = false := by
  simp [h]

/-- C10: the Baseline Estimator is total on profiles whose enumeration
fields hold strings outside the recognized sets (for instance "efficient" or
"inefficient" instead of "yes_efficient"/"yes_not_efficient"): the
unrecognized value contributes 0 gallons to its category and the result is
the same as with the field absent; no error branch exists. -/
theorem C10_unrecognized_enum_contributes_zero (r : InitialResponse) (s : String) :
    (s ≠ "yes_efficient" → s ≠ "yes_not_efficient" →
      (initialCategories { r with dishwasherType := some s }).dishwasherGallons = 0 ∧
      calculateInitialWaterConsumption { r with dishwasherType := some s } =
        calculateInitialWaterConsumption { r with dishwasherType := none }) ∧
    (s ≠ "yes_efficient" → s ≠ "yes_not_efficient" →
      (initialCategories { r with laundryType := some s }).laundryGallons = 0 ∧
      calculateInitialWaterConsumption { r with laundryType := some s } =
        calculateInitialWaterConsumption { r with laundryType := none }) ∧
    (s ≠ "garden_hose" → s ≠ "drive_through" → s ≠ "self_service" →
      (initialCategories { r with carWashMethod := some s }).carWashGallons = 0 ∧
      calculateInitialWaterConsumption { r with carWashMethod := some s } =
        calculateInitialWaterConsumption { r with carWashMethod := none }) ∧
    (s ≠ "basics" → s ≠ "moderate" → s ≠ "addict" →
      (initialCategories { r with shoppingHabits := some s }).shoppingGallons = 0 ∧
      calculateInitialWaterConsumption { r with shoppingHabits := some s } =
        calculateInitialWaterConsumption { r with shoppingHabits := none }) := by
  refine ⟨?_, ?_, ?_, ?_⟩
  · intro hy hn
    have hcat : initialCategories { r with dishwasherType := some s } =
        initialCategories { r with dishwasherType := none } := by
      simp only [initialCategories]
      simp [beq_some_of_ne hy, beq_some_of_ne hn]
    constructor
    · rw [show (initialCategories { r with dishwasherType := some s }).dishwasherGallons =
        (if ((some s : Option String) == some "yes_efficient") &&
            numTruthy r.dishwasherFrequency then
          4 * numVal r.dishwasherFrequency / 30
        else if ((some s : Option String) == some "yes_not_efficient") &&
            numTruthy r.dishwasherFrequency then
          10 * numVal r.dishwasherFrequency / 30
        else 0) from rfl]
      simp [beq_some_of_ne hy, beq_some_of_ne hn]
    · unfold calculateInitialWaterConsumption
      rw [hcat]
  · intro hy hn
    have hcat : initialCategories { r with laundryType := some s } =
        initialCategories { r with laundryType := none } := by
      simp only [initialCategories]
      simp [beq_some_of_ne hy, beq_some_of_ne hn]
    constructor
    · rw [show (initialCategories { r with laundryType := some s }).laundryGallons =
        (if ((some s : Option String) == some "yes_efficient") &&
            numTruthy r.laundryFrequency then
          14 * numVal r.laundryFrequency / 30
        else if ((some s : Option String) == some "yes_not_efficient") &&
            numTruthy r.laundryFrequency then
          20 * numVal r.laundryFrequency / 30
        else 0) from rfl]
      simp [beq_some_of_ne hy, beq_some_of_ne hn]
    · unfold calculateInitialWaterConsumption
      rw [hcat]
  · intro hg hd hs
    have hcat : initialCategories { r with carWashMethod := some s } =
        initialCategories { r with carWashMethod := none } := by
      simp only [initialCategories]
      simp [beq_some_of_ne hg, beq_some_of_ne hd, beq_some_of_ne hs]
    constructor
    · rw [show (initialCategories { r with carWashMethod := some s }).carWashGallons =
        (if ((some s : Option String) == some "garden_hose") &&
            numTruthy r.carWashFrequency then
          100 * numVal r.carWashFrequency / 30
        else if ((some s : Option String) == some "drive_through") &&
            numTruthy r.carWashFrequency then
          35 * numVal r.carWashFrequency / 30
        else if ((some s : Option String) == some "self_service") &&
            numTruthy r.carWashFrequency then
          17 * numVal r.carWashFrequency / 30
        else 0) from rfl]
      simp [beq_some_of_ne hg, beq_some_of_ne hd, beq_some_of_ne hs]
    · unfold calculateInitialWaterConsumption
      rw [hcat]
  · intro hb hm ha
    have hcat : initialCategories { r with shoppingHabits := some s } =
        initialCategories { r with shoppingHabits := none } := by
      simp only [initialCategories]
      simp [beq_some_of_ne hb, beq_some_of_ne hm, beq_some_of_ne ha]
    constructor
    · rw [show (initialCategories { r with shoppingHabits := some s }).shoppingGallons =
        (if ((some s : Option String) == some "basics") then (291:ℚ)
        else if ((some s : Option String) == some "moderate") then 583
        else if ((some s : Option String) == some "addict") then 1000
        else 0) from rfl]
      simp [beq_some_of_ne hb, beq_some_of_ne hm, beq_some_of_ne ha]
    · unfold calculateInitialWaterConsumption
      rw [hcat]

/-- C10 witness: the literal "efficient" is not a recognized dishwasher
type; with it the dishwasher category is 0 and the output matches the
absent-field output. -/
theorem C10_witness :
    (initialCategories { emptyInitial with
        dishwasherType := some "efficient" }).dishwasherGallons = 0 ∧
    calculateInitialWaterConsumption { emptyInitial with
        dishwasherType := some "efficient" } =
      calculateInitialWaterConsumption { emptyInitial with
        dishwasherType := none } :=
  (C10_unrecognized_enum_contributes_zero emptyInitial "efficient").1
    (by decide) (by decide)

end WaterIntake
